import Mathlib

/-!
Verification of the split-and-analyze core of `interactive_report.py`.

The Python core (`analyze_split`) sorts a pandas DataFrame by the column
`2021_GDP` descending, cuts it at `max(1, min(int(n * (p / 100)), n - 1))`,
and for each of the two groups runs `scipy.stats.ttest_ind` on the columns
`2021_HE` (comparison) versus `2019_HE` (reference) with `nan_policy='omit'`,
plus twelve pandas descriptive statistics per column.

Embedding conventions:
* Numeric cell values are exact rationals (`ℚ`); a missing cell (NaN) is
  `Option.none`.  IEEE floating-point rounding, NaN and infinity are
  idealised away: arithmetic is exact.
* Quantities whose Python value involves a square root (standard deviation,
  standard error, skewness) are represented by their squares - for skewness
  by its sign-preserving square `x * |x|` - which keeps every definition
  computable over `ℚ` while determining the real value uniquely, since
  `x ↦ x * |x|` is injective and the other two are nonnegative.
* The two-tailed p-value produced by scipy's t-distribution is an external
  numerical routine; it enters the model as an explicit oracle argument
  `pv : List ℚ → List ℚ → ℚ`, and every theorem about the significance
  logic is proved for every oracle.
* A pandas `KeyError` on a missing column is modelled as the error value
  `AnalysisErr.missingColumn`.
-/

/-- One row of the dataset.  Only the three columns the core reads are
modelled: the rank column `2021_GDP` (constrained numeric and present by the
design) and the two measurement columns, which may hold missing values. -/
structure Row where
  gdp : ℚ
  he2019 : Option ℚ
  he2021 : Option ℚ
deriving DecidableEq, Repr

/-- The in-memory table.  The three Booleans model whether each of the three
column names the core accesses is present in the frame's schema; accessing an
absent column raises `KeyError` in pandas. -/
structure DataFrame where
  hasGDP : Bool
  hasHE2019 : Bool
  hasHE2021 : Bool
  rows : List Row
deriving DecidableEq, Repr

/-- Errors surfaced by the analysis.  `missingColumn c` models the pandas
`KeyError` raised when column `c` is absent. -/
inductive AnalysisErr where
  | missingColumn (c : String)
deriving DecidableEq, Repr

/-- Python's `int()` applied to a real number: truncation toward zero
(floor for nonnegative arguments, ceiling for negative ones). -/
def pyInt (q : ℚ) : ℤ :=
  if 0 ≤ q then ⌊q⌋ else ⌈q⌉

/-- Line 26 and 29 of the source:
`cutoff_idx = int(len(data_sorted) * (percentile_threshold / 100))` followed by
`cutoff_idx = max(1, min(cutoff_idx, len(data_sorted) - 1))`. -/
def cutoffIdx (n : ℕ) (p : ℚ) : ℤ :=
  max 1 (min (pyInt ((n : ℚ) * (p / 100))) ((n : ℤ) - 1))

/-- Insert a row into a list already sorted by `gdp` descending, keeping it
sorted; the new row goes before the first strictly smaller entry. -/
def insertDesc (r : Row) : List Row → List Row
  | [] => [r]
  | s :: l => if s.gdp ≤ r.gdp then r :: s :: l else s :: insertDesc r l

/-- Line 23 of the source: `data.sort_values(by='2021_GDP', ascending=False)`,
modelled as an insertion sort by `gdp` descending. -/
def sortRows : List Row → List Row
  | [] => []
  | r :: l => insertDesc r (sortRows l)

/-- Lines 23-33 of the source: sort descending by the rank column, compute the
clamped cutoff, and split into `iloc[:cutoff]` and `iloc[cutoff:]`. -/
def splitRows (rows : List Row) (p : ℚ) : List Row × List Row :=
  ((sortRows rows).take (cutoffIdx (sortRows rows).length p).toNat,
   (sortRows rows).drop (cutoffIdx (sortRows rows).length p).toNat)

/-- The non-missing values of a column, in row order.  This is what pandas
skips NaN to compute over, and what `nan_policy='omit'` feeds to the t-test. -/
def nonMissing (vals : List (Option ℚ)) : List ℚ :=
  vals.filterMap id

/-- Arithmetic mean `l.sum / len(l)`; meaningful only for nonempty `l`
(callers guard the empty case, where pandas produces NaN). -/
def meanQ (l : List ℚ) : ℚ :=
  l.sum / (l.length : ℚ)

/-- Pandas sample variance (`ddof=1`): `Σ (x - mean)² / (n - 1)`; meaningful
only for `n ≥ 2` (callers guard `n < 2`, where pandas produces NaN). -/
def varQ (l : List ℚ) : ℚ :=
  (l.map (fun x => (x - meanQ l) ^ 2)).sum / ((l.length : ℚ) - 1)

/-- Insert into an ascending-sorted rational list (used for the median). -/
def insertAsc (x : ℚ) : List ℚ → List ℚ
  | [] => [x]
  | y :: l => if x ≤ y then x :: y :: l else y :: insertAsc x l

/-- Ascending insertion sort on rationals (used for the median). -/
def sortAsc : List ℚ → List ℚ
  | [] => []
  | x :: l => insertAsc x (sortAsc l)

/-- Pandas `Series.median()` over the non-missing values: middle element of
the ascending sort for odd counts, average of the two middle elements for
even counts, NaN (`none`) for an empty sample. -/
def medianQ (l : List ℚ) : Option ℚ :=
  if l.length = 0 then none
  else if l.length % 2 = 1 then (sortAsc l)[l.length / 2]?
  else match (sortAsc l)[l.length / 2 - 1]?, (sortAsc l)[l.length / 2]? with
    | some a, some b => some ((a + b) / 2)
    | _, _ => none

/-- Pandas `Series.min()`: minimum of the non-missing values, NaN (`none`)
when there are none. -/
def minQ : List ℚ → Option ℚ
  | [] => none
  | x :: l => some (l.foldl min x)

/-- Pandas `Series.max()`: maximum of the non-missing values, NaN (`none`)
when there are none. -/
def maxQ : List ℚ → Option ℚ
  | [] => none
  | x :: l => some (l.foldl max x)

/-- Pandas `Series.kurtosis()` (`nanops.nankurt`): with `n` observations,
mean-centred power sums `m2 = Σ (x - m)²` and `m4 = Σ (x - m)⁴`, the value is
`n(n+1)(n-1)·m4 / ((n-2)(n-3)·m2²) - 3(n-1)²/((n-2)(n-3))`; pandas returns
NaN when `n < 4` and `0` when the denominator vanishes (constant sample). -/
def kurtQ (l : List ℚ) : Option ℚ :=
  if l.length < 4 then none
  else if (l.map (fun x => (x - meanQ l) ^ 2)).sum = 0 then some 0
  else some
    ((l.length : ℚ) * ((l.length : ℚ) + 1) * ((l.length : ℚ) - 1) *
        (l.map (fun x => (x - meanQ l) ^ 4)).sum /
        (((l.length : ℚ) - 2) * ((l.length : ℚ) - 3) *
          ((l.map (fun x => (x - meanQ l) ^ 2)).sum) ^ 2) -
      3 * ((l.length : ℚ) - 1) ^ 2 / (((l.length : ℚ) - 2) * ((l.length : ℚ) - 3)))

/-- Pandas `Series.skew()` (`nanops.nanskew`): with `m2 = Σ (x - m)²` and
`m3 = Σ (x - m)³`, the value is `n·√(n-1)/(n-2) · m3/m2^{3/2}`; pandas
returns NaN when `n < 3` and `0` for a constant sample.  Represented here by
its sign-preserving square `x * |x|`, which is the exact rational
`n²(n-1)/(n-2)² · m3·|m3| / m2³`. -/
def skewSgnSqQ (l : List ℚ) : Option ℚ :=
  if l.length < 3 then none
  else if (l.map (fun x => (x - meanQ l) ^ 2)).sum = 0 then some 0
  else some
    ((l.length : ℚ) ^ 2 * ((l.length : ℚ) - 1) / ((l.length : ℚ) - 2) ^ 2 *
      ((l.map (fun x => (x - meanQ l) ^ 3)).sum *
        |(l.map (fun x => (x - meanQ l) ^ 3)).sum|) /
      ((l.map (fun x => (x - meanQ l) ^ 2)).sum) ^ 3)

/-- The battery of twelve descriptive statistics of lines 49-62 of the
source, one column of one group, in source order.  `none` is the NaN
sentinel.  `seSq`, `stdSq` and `skewSgnSq` hold the square (for skewness the
sign-preserving square `x * |x|`) of the Python value, which is irrational in
general; the remaining metrics are the exact Python values. -/
structure DescStats where
  mean : Option ℚ
  seSq : Option ℚ
  median : Option ℚ
  stdSq : Option ℚ
  variance : Option ℚ
  kurtosis : Option ℚ
  skewSgnSq : Option ℚ
  range : Option ℚ
  min : Option ℚ
  max : Option ℚ
  sum : ℚ
  count : ℕ
deriving DecidableEq, Repr

/-- Lines 49-62 of the source, for the series of one column over one group
(`vals` has one entry per group row; `none` is NaN):
`Mean` is `mean()`; `Standard Error` is `std() / len(series) ** 0.5` - note
the denominator is the full series length `len(group[year])`, missing entries
included, not the non-missing count; `Median`, `Standard Deviation`,
`Sample Variance`, `Kurtosis` (pandas `nankurt`: bias-corrected sample excess
kurtosis, NaN below four observations, `0` for a constant sample),
`Skewness` (pandas `nanskew`: bias-corrected sample skewness, NaN below three
observations, `0` for a constant sample), `Range = max() - min()`,
`Minimum`, `Maximum`, `Sum` (pandas sums an all-missing series to `0`), and
`Count` of non-missing entries.  Square-root-valued metrics are represented
by their squares as documented on `DescStats`. -/
def descStats (vals : List (Option ℚ)) : DescStats :=
  { mean :=
      if (nonMissing vals).length = 0 then none else some (meanQ (nonMissing vals))
    seSq :=
      if (nonMissing vals).length < 2 then none
      else some (varQ (nonMissing vals) / (vals.length : ℚ))
    median := medianQ (nonMissing vals)
    stdSq :=
      if (nonMissing vals).length < 2 then none else some (varQ (nonMissing vals))
    variance :=
      if (nonMissing vals).length < 2 then none else some (varQ (nonMissing vals))
    kurtosis := kurtQ (nonMissing vals)
    skewSgnSq := skewSgnSqQ (nonMissing vals)
    range :=
      match maxQ (nonMissing vals), minQ (nonMissing vals) with
      | some hi, some lo => some (hi - lo)
      | _, _ => none
    min := minQ (nonMissing vals)
    max := maxQ (nonMissing vals)
    sum := (nonMissing vals).sum
    count := (nonMissing vals).length }

/-- The t statistic of `scipy.stats.ttest_ind` (equal variances assumed,
`nan_policy='omit'`), classified exactly enough to determine its sign:
`nan` when either omitted sample has fewer than two values (the `ddof=1`
variance of such a sample is NaN and propagates), `posInf`/`negInf` when the
pooled standard error vanishes and the mean difference is nonzero (IEEE
division of a nonzero float by `0.0`), and otherwise `val num denomSq` for
the finite statistic `num / √denomSq` with `num = mean(xs) - mean(ys)`,
`denomSq = svar · (1/n₁ + 1/n₂)` and
`svar = ((n₁-1)·var(xs) + (n₂-1)·var(ys)) / (n₁+n₂-2)` the pooled variance. -/
inductive TStat where
  | nan
  | posInf
  | negInf
  | val (num denomSq : ℚ)
deriving DecidableEq, Repr

/-- The classification of the t statistic for comparison sample `xs` and
reference sample `ys` (both already NaN-omitted), following scipy's pooled
two-sample formula as described on `TStat`. -/
def tStatClass (xs ys : List ℚ) : TStat :=
  if xs.length < 2 ∨ ys.length < 2 then .nan
  else if (((xs.length : ℚ) - 1) * varQ xs + ((ys.length : ℚ) - 1) * varQ ys) /
      ((xs.length : ℚ) + (ys.length : ℚ) - 2) *
      (1 / (xs.length : ℚ) + 1 / (ys.length : ℚ)) = 0 then
    if 0 < meanQ xs - meanQ ys then .posInf
    else if meanQ xs - meanQ ys < 0 then .negInf
    else .nan
  else
    .val (meanQ xs - meanQ ys)
      ((((xs.length : ℚ) - 1) * varQ xs + ((ys.length : ℚ) - 1) * varQ ys) /
        ((xs.length : ℚ) + (ys.length : ℚ) - 2) *
        (1 / (xs.length : ℚ) + 1 / (ys.length : ℚ)))

/-- Python's `t_test_result.statistic > 0` on the classified statistic:
false for NaN (any comparison with NaN is false), true for `+inf`, and for a
finite `num / √denomSq` with `denomSq > 0` it is the sign of `num`. -/
def TStat.positive : TStat → Bool
  | .nan => false
  | .posInf => true
  | .negInf => false
  | .val num _ => decide (0 < num)

/-- The comparison sample fed to the t-test: column `2021_HE` of the group
with NaNs omitted (first argument of `ttest_ind` on line 43). -/
def compSample (g : List Row) : List ℚ :=
  nonMissing (g.map Row.he2021)

/-- The reference sample fed to the t-test: column `2019_HE` of the group
with NaNs omitted (second argument of `ttest_ind` on line 43). -/
def refSample (g : List Row) : List ℚ :=
  nonMissing (g.map Row.he2019)

/-- The per-group result of lines 42-70 of the source: the group's rows, the
one-tailed p-value (`pvalue / 2`), the sign-classified t statistic, the
significance flag `one_tailed_pvalue < 0.05 and statistic > 0`, and the
descriptive-statistics battery for each of the two columns. -/
structure GroupResult where
  rows : List Row
  pvalue : ℚ
  stat : TStat
  significant : Bool
  stats2019 : DescStats
  stats2021 : DescStats
deriving DecidableEq, Repr

/-- Analysis of one group, lines 42-70 of the source.  `pv` is the oracle for
scipy's two-tailed p-value on the two NaN-omitted samples; scipy's p-value is
NaN exactly when the statistic is NaN, in which case the flag below is false
through the `statistic > 0` conjunct for every oracle value, so modelling the
p-value as a plain rational loses no behaviour the flag can observe. -/
def analyzeGroup (pv : List ℚ → List ℚ → ℚ) (g : List Row) : GroupResult :=
  { rows := g
    pvalue := pv (compSample g) (refSample g) / 2
    stat := tStatClass (compSample g) (refSample g)
    significant :=
      decide (pv (compSample g) (refSample g) / 2 < 0.05) &&
        (tStatClass (compSample g) (refSample g)).positive
    stats2019 := descStats (g.map Row.he2019)
    stats2021 := descStats (g.map Row.he2021) }

/-- The two group results of one analysis request, upper (`Top p%`) group
first. -/
structure SplitResults where
  upper : GroupResult
  lower : GroupResult
deriving DecidableEq, Repr

/-- The full `analyze_split(data, percentile_threshold)` of lines 21-72:
fails with the pandas `KeyError` (modelled as `missingColumn`) if a required
column is absent - `2021_GDP` at the sort on line 23, then `2021_HE` and
`2019_HE` at the t-test on line 43, in access order - and otherwise splits at
the clamped percentile cutoff and analyzes both groups.  The source has no
guard for datasets with fewer than two rows: the clamp alone decides the
group sizes. -/
def analyze_split (pv : List ℚ → List ℚ → ℚ) (df : DataFrame) (percentile : ℚ) :
    Except AnalysisErr SplitResults :=
  if df.hasGDP = false then Except.error (AnalysisErr.missingColumn "2021_GDP")
  else if df.hasHE2021 = false then Except.error (AnalysisErr.missingColumn "2021_HE")
  else if df.hasHE2019 = false then Except.error (AnalysisErr.missingColumn "2019_HE")
  else Except.ok
    { upper := analyzeGroup pv (splitRows df.rows percentile).1
      lower := analyzeGroup pv (splitRows df.rows percentile).2 }

/-- True exactly when the analysis failed with a missing-column error. -/
def isMissingColumnError : Except AnalysisErr SplitResults → Bool
  | Except.error (AnalysisErr.missingColumn _) => true
  | Except.ok _ => false

/-- The cutoff as the specification words it, for comparison with the
source's `cutoffIdx`: "Compute `cutoff = floor(len(dataset) * percentile /
100)`.  Clamp `cutoff` to the closed range `[1, len(dataset) - 1]`". -/
def specCutoff (n : ℕ) (p : ℚ) : ℕ :=
  (max 1 (min ⌊(n : ℚ) * p / 100⌋ ((n : ℤ) - 1))).toNat

/-- The standard error as the specification words it, for comparison with
the `seSq` field of `descStats`: "Standard Error = sample standard deviation
/ sqrt(non-missing count)" - represented, like `seSq`, by its square. -/
def specSESq (vals : List (Option ℚ)) : Option ℚ :=
  if (nonMissing vals).length < 2 then none
  else some (varQ (nonMissing vals) / ((nonMissing vals).length : ℚ))

/-- A constant p-value oracle, used to instantiate universally quantified
theorems at concrete inputs. -/
def pvZero : List ℚ → List ℚ → ℚ :=
  fun _ _ => 0

/-- A ten-row dataset with distinct rank values 100, 90, ..., 10. -/
def tenRows : List Row :=
  [⟨100, some 1, some 2⟩, ⟨90, some 1, some 2⟩, ⟨80, some 1, some 2⟩,
   ⟨70, some 1, some 2⟩, ⟨60, some 1, some 2⟩, ⟨50, some 1, some 2⟩,
   ⟨40, some 1, some 2⟩, ⟨30, some 1, some 2⟩, ⟨20, some 1, some 2⟩,
   ⟨10, some 1, some 2⟩]

/-- A two-row dataset, supplied out of rank order. -/
def twoRows : List Row :=
  [⟨3, some 1, some 1⟩, ⟨5, some 2, some 2⟩]

/-- A group whose comparison column (`2021_HE`) is uniformly `1` and whose
reference column (`2019_HE`) is uniformly `5`: every comparison value is
strictly below every reference value. -/
def lowGroup : List Row :=
  [⟨1, some 5, some 1⟩, ⟨2, some 5, some 1⟩]

/-- A five-row group whose `2019_HE` column holds `0, 0, 0, 2` and one
missing value: four non-missing observations with sample variance `1`, in a
group of five rows. -/
def seGroup : List Row :=
  [⟨1, some 0, some 1⟩, ⟨2, some 0, some 1⟩, ⟨3, some 0, some 1⟩,
   ⟨4, some 2, some 1⟩, ⟨5, none, some 1⟩]

/-- A single-row dataset with all three columns present. -/
def oneRowDF : DataFrame :=
  ⟨true, true, true, [⟨1, some 2, some 3⟩]⟩

/-- A dataset whose `2021_GDP` column is absent. -/
def noGdpDF : DataFrame :=
  ⟨false, true, true, [⟨1, some 2, some 3⟩, ⟨2, some 4, some 5⟩]⟩

/-- A one-row group whose `2021_HE` column is entirely missing. -/
def empty21Group : List Row :=
  [⟨1, some 2, none⟩]

theorem insertDesc_length (r : Row) (l : List Row) :
    (insertDesc r l).length = l.length + 1 := by
  induction l with
  | nil => rfl
  | cons s t ih =>
    by_cases h : s.gdp ≤ r.gdp
    · simp [insertDesc, h]
    · simp [insertDesc, h, ih]

theorem sortRows_length (l : List Row) : (sortRows l).length = l.length := by
  induction l with
  | nil => rfl
  | cons r t ih => simp [sortRows, insertDesc_length, ih]

theorem mem_insertDesc {x r : Row} {l : List Row} (h : x ∈ insertDesc r l) :
    x = r ∨ x ∈ l := by
  induction l with
  | nil => simpa [insertDesc] using h
  | cons s t ih =>
    by_cases hc : s.gdp ≤ r.gdp
    · simp only [insertDesc, if_pos hc, List.mem_cons] at h
      rcases h with h | h | h
      · exact Or.inl h
      · exact Or.inr (by simp [h])
      · exact Or.inr (by simp [h])
    · simp only [insertDesc, if_neg hc, List.mem_cons] at h
      rcases h with h | h
      · exact Or.inr (by simp [h])
      · rcases ih h with h1 | h1
        · exact Or.inl h1
        · exact Or.inr (List.mem_cons_of_mem _ h1)

theorem pairwise_insertDesc {r : Row} {l : List Row}
    (h : l.Pairwise (fun a b => b.gdp ≤ a.gdp)) :
    (insertDesc r l).Pairwise (fun a b => b.gdp ≤ a.gdp) := by
  induction l with
  | nil => simp [insertDesc]
  | cons s t ih =>
    rcases List.pairwise_cons.mp h with ⟨hs, ht⟩
    by_cases hc : s.gdp ≤ r.gdp
    · simp only [insertDesc, if_pos hc]
      refine List.pairwise_cons.mpr ⟨?_, h⟩
      intro z hz
      rcases List.mem_cons.mp hz with rfl | hz1
      · exact hc
      · exact le_trans (hs z hz1) hc
    · simp only [insertDesc, if_neg hc]
      refine List.pairwise_cons.mpr ⟨?_, ih ht⟩
      intro z hz
      rcases mem_insertDesc hz with rfl | hz1
      · exact le_of_not_le hc
      · exact hs z hz1

theorem sortRows_pairwise (l : List Row) :
    (sortRows l).Pairwise (fun a b => b.gdp ≤ a.gdp) := by
  induction l with
  | nil => simp [sortRows]
  | cons r t ih => exact pairwise_insertDesc ih

theorem clamp_pyInt_eq_clamp_floor (q : ℚ) (m : ℤ) :
    max 1 (min (pyInt q) m) = max 1 (min ⌊q⌋ m) := by
  unfold pyInt
  split
  · rfl
  · rename_i hq
    have hq0 : q ≤ 0 := (not_le.mp hq).le
    have h1 : ⌈q⌉ ≤ 0 := Int.ceil_le.mpr (by exact_mod_cast hq0)
    have h2 : ⌊q⌋ ≤ 0 := Int.floor_nonpos hq0
    have e1 : max 1 (min ⌈q⌉ m) = 1 :=
      max_eq_left (le_trans (min_le_left _ _) (by omega))
    have e2 : max 1 (min ⌊q⌋ m) = 1 :=
      max_eq_left (le_trans (min_le_left _ _) (by omega))
    rw [e1, e2]

theorem pyInt_mono {a b : ℚ} (h : a ≤ b) : pyInt a ≤ pyInt b := by
  unfold pyInt
  split <;> split
  · exact Int.floor_mono h
  · rename_i h1 h2
    exact absurd (le_trans h1 h) h2
  · rename_i h1 h2
    have : ⌈a⌉ ≤ 0 := Int.ceil_le.mpr (by exact_mod_cast (not_le.mp h1).le)
    exact le_trans this (Int.floor_nonneg.mpr h2)
  · exact Int.ceil_mono h

theorem one_le_cutoffIdx (n : ℕ) (p : ℚ) : 1 ≤ cutoffIdx n p :=
  le_max_left _ _

theorem cutoffIdx_le (n : ℕ) (p : ℚ) (h : 2 ≤ n) : cutoffIdx n p ≤ (n : ℤ) - 1 := by
  unfold cutoffIdx
  apply max_le
  · omega
  · exact min_le_right _ _

theorem one_le_cutoffIdx_toNat (n : ℕ) (p : ℚ) : 1 ≤ (cutoffIdx n p).toNat := by
  have := one_le_cutoffIdx n p
  omega

theorem cutoffIdx_toNat_le (n : ℕ) (p : ℚ) (h : 2 ≤ n) :
    (cutoffIdx n p).toNat ≤ n - 1 := by
  have := cutoffIdx_le n p h
  omega

theorem cutoffIdx_mono (n : ℕ) {p1 p2 : ℚ} (h : p1 ≤ p2) :
    cutoffIdx n p1 ≤ cutoffIdx n p2 := by
  unfold cutoffIdx
  have hd : (n : ℚ) * (p1 / 100) ≤ (n : ℚ) * (p2 / 100) := by
    apply mul_le_mul_of_nonneg_left _ (by positivity)
    exact (div_le_div_iff_of_pos_right (by norm_num)).mpr h
  exact max_le_max le_rfl (min_le_min (pyInt_mono hd) le_rfl)

theorem sum_lt_length_mul {l : List ℚ} {c : ℚ} (hne : l ≠ []) (h : ∀ x ∈ l, x < c) :
    l.sum < (l.length : ℚ) * c := by
  induction l with
  | nil => exact absurd rfl hne
  | cons a t ih =>
    rcases eq_or_ne t [] with rfl | ht
    · simpa using h a (by simp)
    · have h1 := ih ht (fun x hx => h x (by simp [hx]))
      have h2 := h a (by simp)
      simp only [List.sum_cons, List.length_cons]
      push_cast
      nlinarith

theorem length_mul_lt_sum {l : List ℚ} {c : ℚ} (hne : l ≠ []) (h : ∀ x ∈ l, c < x) :
    (l.length : ℚ) * c < l.sum := by
  induction l with
  | nil => exact absurd rfl hne
  | cons a t ih =>
    rcases eq_or_ne t [] with rfl | ht
    · simpa using h a (by simp)
    · have h1 := ih ht (fun x hx => h x (by simp [hx]))
      have h2 := h a (by simp)
      simp only [List.sum_cons, List.length_cons]
      push_cast
      nlinarith

theorem meanQ_lt {l : List ℚ} {c : ℚ} (hne : l ≠ []) (h : ∀ x ∈ l, x < c) :
    meanQ l < c := by
  have hlen : 0 < (l.length : ℚ) := by
    have : 0 < l.length := List.length_pos.mpr hne
    exact_mod_cast this
  unfold meanQ
  rw [div_lt_iff₀ hlen]
  calc l.sum < (l.length : ℚ) * c := sum_lt_length_mul hne h
  _ = c * (l.length : ℚ) := mul_comm _ _

theorem lt_meanQ {l : List ℚ} {c : ℚ} (hne : l ≠ []) (h : ∀ x ∈ l, c < x) :
    c < meanQ l := by
  have hlen : 0 < (l.length : ℚ) := by
    have : 0 < l.length := List.length_pos.mpr hne
    exact_mod_cast this
  unfold meanQ
  rw [lt_div_iff₀ hlen]
  calc c * (l.length : ℚ) = (l.length : ℚ) * c := mul_comm _ _
  _ < l.sum := length_mul_lt_sum hne h

theorem tStat_not_positive {xs ys : List ℚ} (h : ∀ x ∈ xs, ∀ y ∈ ys, x < y) :
    (tStatClass xs ys).positive = false := by
  unfold tStatClass
  split
  · rfl
  · rename_i hlen
    push_neg at hlen
    obtain ⟨h1, h2⟩ := hlen
    have hxs : xs ≠ [] := by
      intro e
      rw [e] at h1
      simp at h1
    have hys : ys ≠ [] := by
      intro e
      rw [e] at h2
      simp at h2
    have hnum : meanQ xs - meanQ ys < 0 := by
      have hx : ∀ x ∈ xs, x < meanQ ys := fun x hx =>
        lt_meanQ hys (fun y hy => h x hx y hy)
      have := meanQ_lt hxs hx
      linarith
    split
    · rw [if_neg (not_lt.mpr hnum.le)]
      rfl
    · simp only [TStat.positive, decide_eq_false_iff_not, not_lt]
      linarith

/-- Claim C1: for every dataset with at least two rows and every rational
percentile (out-of-range values included), the split produces two groups
whose sizes sum to the dataset size, each group holding at least one row. -/
theorem splitRows_sizes (rows : List Row) (p : ℚ) (h : 2 ≤ rows.length) :
    (splitRows rows p).1.length + (splitRows rows p).2.length = rows.length ∧
    1 ≤ (splitRows rows p).1.length ∧ 1 ≤ (splitRows rows p).2.length := by
  have hs : (sortRows rows).length = rows.length := sortRows_length rows
  have h1 : 1 ≤ (cutoffIdx rows.length p).toNat := one_le_cutoffIdx_toNat _ _
  have h2 : (cutoffIdx rows.length p).toNat ≤ rows.length - 1 :=
    cutoffIdx_toNat_le _ _ h
  simp only [splitRows, List.length_take, List.length_drop, hs]
  omega

theorem splitRows_sizes_witness :
    2 ≤ twoRows.length ∧
      ((splitRows twoRows 50).1.length + (splitRows twoRows 50).2.length = twoRows.length ∧
       1 ≤ (splitRows twoRows 50).1.length ∧ 1 ≤ (splitRows twoRows 50).2.length) :=
  ⟨by decide, splitRows_sizes twoRows 50 (by decide)⟩

/-- Claim C2: for every dataset with at least two rows and every rational
percentile, the split equals taking the first `cutoff` rows of the
descending-sorted list and dropping the rest, where `cutoff` is
`floor(len * percentile / 100)` clamped to `[1, len - 1]` exactly as the
specification words it (`specCutoff`); and on a ten-row dataset percentile
`0` leaves exactly one row in the upper group while percentile `100` leaves
exactly one row in the lower group. -/
theorem splitRows_floor_clamp_spec (rows : List Row) (p : ℚ) (_h : 2 ≤ rows.length) :
    splitRows rows p =
      ((sortRows rows).take (specCutoff rows.length p),
       (sortRows rows).drop (specCutoff rows.length p)) ∧
    (rows.length = 10 →
      (splitRows rows 0).1.length = 1 ∧ (splitRows rows 100).2.length = 1) := by
  have hs : (sortRows rows).length = rows.length := sortRows_length rows
  have key : ∀ q : ℚ, (cutoffIdx rows.length q).toNat = specCutoff rows.length q := by
    intro q
    unfold cutoffIdx specCutoff
    rw [clamp_pyInt_eq_clamp_floor, mul_div_assoc]
  constructor
  · simp only [splitRows, hs, key]
  · intro h10
    have c0 : (cutoffIdx 10 0).toNat = 1 := by with_unfolding_all decide
    have c100 : (cutoffIdx 10 100).toNat = 9 := by with_unfolding_all decide
    constructor
    · simp only [splitRows, List.length_take, hs, h10, c0]
      omega
    · simp only [splitRows, List.length_drop, hs, h10, c100]

theorem splitRows_floor_clamp_spec_witness :
    2 ≤ tenRows.length ∧ tenRows.length = 10 ∧
      (splitRows tenRows 0).1.length = 1 ∧ (splitRows tenRows 100).2.length = 1 :=
  ⟨by decide, by decide,
    ((splitRows_floor_clamp_spec tenRows 0 (by decide)).2 (by decide)).1,
    ((splitRows_floor_clamp_spec tenRows 100 (by decide)).2 (by decide)).2⟩

/-- Claim C3: for every group and every p-value oracle, the reported
one-tailed p-value is the two-tailed p-value halved; the significance flag is
true exactly when that one-tailed p-value is below `0.05` and the t statistic
is strictly positive; and whenever every comparison-column value is strictly
below every reference-column value the flag is false, regardless of the
p-value the oracle produces. -/
theorem analyzeGroup_significance (pv : List ℚ → List ℚ → ℚ) (g : List Row) :
    (analyzeGroup pv g).pvalue = pv (compSample g) (refSample g) / 2 ∧
    ((analyzeGroup pv g).significant = true ↔
      ((analyzeGroup pv g).pvalue < 0.05 ∧ (analyzeGroup pv g).stat.positive = true)) ∧
    ((∀ x ∈ compSample g, ∀ y ∈ refSample g, x < y) →
      (analyzeGroup pv g).significant = false) := by
  refine ⟨rfl, ?_, ?_⟩
  · simp [analyzeGroup, Bool.and_eq_true, decide_eq_true_eq]
  · intro hlt
    have hpos := tStat_not_positive hlt
    simp only [analyzeGroup]
    rw [hpos, Bool.and_false]

theorem analyzeGroup_significance_witness :
    (analyzeGroup pvZero lowGroup).pvalue = 0 ∧
      (analyzeGroup pvZero lowGroup).significant = false :=
  ⟨by with_unfolding_all decide,
    (analyzeGroup_significance pvZero lowGroup).2.2 (by with_unfolding_all decide)⟩

/-- Claim C4 counterexample: on a five-row group whose `2019_HE` column has
four non-missing values of sample variance `1` and one missing value, the
code's Standard Error (squared: `1/5`, the variance over the full group
length) differs from the specification's `std / sqrt(non-missing count)`
(squared: `1/4`). -/
theorem seSq_spec_counterexample :
    (analyzeGroup pvZero seGroup).stats2019.seSq ≠ specSESq (seGroup.map Row.he2019) := by
  with_unfolding_all decide

/-- Claim C4 as amended: for every group and both columns, the reported
Standard Error is the sample standard deviation divided by the square root
of the group's total row count (missing entries included), stated on the
squares: `seSq = stdSq / len(group)`. -/
theorem seSq_uses_total_length (pv : List ℚ → List ℚ → ℚ) (g : List Row) :
    (analyzeGroup pv g).stats2019.seSq =
      (analyzeGroup pv g).stats2019.stdSq.map (fun v => v / (g.length : ℚ)) ∧
    (analyzeGroup pv g).stats2021.seSq =
      (analyzeGroup pv g).stats2021.stdSq.map (fun v => v / (g.length : ℚ)) := by
  have h19 : (g.map Row.he2019).length = g.length := List.length_map _ _
  have h21 : (g.map Row.he2021).length = g.length := List.length_map _ _
  constructor
  · simp only [analyzeGroup, descStats, h19]
    split
    · rfl
    · rfl
  · simp only [analyzeGroup, descStats, h21]
    split
    · rfl
    · rfl

/-- Claim C5 (code-bug exhibit): the source has no fewer-than-two-rows guard;
on a one-row dataset it returns normally, with the clamp forcing the single
row into the upper group and the lower group coming back empty - no
`InsufficientDataError` exists anywhere in the source. -/
theorem oneRow_silent_empty_lower :
    oneRowDF.rows.length < 2 ∧
      (analyze_split pvZero oneRowDF 50).toOption.map (fun r => r.lower.rows) =
        some [] := by
  with_unfolding_all decide

/-- Claim C6: for every dataset in which one of the three required columns is
absent, every oracle and every percentile, the analysis fails with a
missing-column error (the pandas `KeyError`), surfaced to the caller. -/
theorem analyze_split_missing_column (pv : List ℚ → List ℚ → ℚ) (df : DataFrame)
    (p : ℚ)
    (h : df.hasGDP = false ∨ df.hasHE2019 = false ∨ df.hasHE2021 = false) :
    isMissingColumnError (analyze_split pv df p) = true := by
  cases hg : df.hasGDP <;> cases h21 : df.hasHE2021 <;> cases h19 : df.hasHE2019 <;>
    simp_all [analyze_split, isMissingColumnError]

theorem analyze_split_missing_column_witness :
    (noGdpDF.hasGDP = false ∨ noGdpDF.hasHE2019 = false ∨ noGdpDF.hasHE2021 = false) ∧
      isMissingColumnError (analyze_split pvZero noGdpDF 50) = true :=
  ⟨by decide, analyze_split_missing_column pvZero noGdpDF 50 (by decide)⟩

/-- Claim C8: for a fixed dataset with at least two rows, the size of the
upper group is monotonically non-decreasing in the percentile. -/
theorem upperSize_monotone (rows : List Row) (p1 p2 : ℚ) (_h : 2 ≤ rows.length)
    (hp : p1 ≤ p2) :
    (splitRows rows p1).1.length ≤ (splitRows rows p2).1.length := by
  simp only [splitRows, List.length_take]
  have hm := cutoffIdx_mono (sortRows rows).length hp
  have h1 : (cutoffIdx (sortRows rows).length p1).toNat ≤
      (cutoffIdx (sortRows rows).length p2).toNat := by omega
  exact min_le_min h1 le_rfl

theorem upperSize_monotone_witness :
    2 ≤ tenRows.length ∧ (5 : ℚ) ≤ 95 ∧
      (splitRows tenRows 5).1.length ≤ (splitRows tenRows 95).1.length :=
  ⟨by decide, by with_unfolding_all decide,
    upperSize_monotone tenRows 5 95 (by decide) (by with_unfolding_all decide)⟩

theorem descStats_all_nan {vals : List (Option ℚ)} (h : (nonMissing vals).length = 0) :
    (descStats vals).mean = none ∧ (descStats vals).seSq = none ∧
    (descStats vals).median = none ∧ (descStats vals).stdSq = none ∧
    (descStats vals).variance = none ∧ (descStats vals).kurtosis = none ∧
    (descStats vals).skewSgnSq = none ∧ (descStats vals).range = none ∧
    (descStats vals).min = none ∧ (descStats vals).max = none ∧
    (descStats vals).sum = 0 ∧ (descStats vals).count = 0 := by
  have he : nonMissing vals = [] := List.length_eq_zero.mp h
  simp [descStats, he, medianQ, minQ, maxQ, kurtQ, skewSgnSqQ]

/-- Claim C9: the analysis is total, and for every group in which one
column's non-missing count is zero, every metric pandas leaves undefined
there - the first ten of the twelve - is the NaN sentinel for that column,
while `Sum` is `0` and `Count` is `0`. -/
theorem zeroCount_nan_sentinel (pv : List ℚ → List ℚ → ℚ) (g : List Row) :
    ((compSample g).length = 0 →
      (analyzeGroup pv g).stats2021.mean = none ∧
      (analyzeGroup pv g).stats2021.seSq = none ∧
      (analyzeGroup pv g).stats2021.median = none ∧
      (analyzeGroup pv g).stats2021.stdSq = none ∧
      (analyzeGroup pv g).stats2021.variance = none ∧
      (analyzeGroup pv g).stats2021.kurtosis = none ∧
      (analyzeGroup pv g).stats2021.skewSgnSq = none ∧
      (analyzeGroup pv g).stats2021.range = none ∧
      (analyzeGroup pv g).stats2021.min = none ∧
      (analyzeGroup pv g).stats2021.max = none ∧
      (analyzeGroup pv g).stats2021.sum = 0 ∧
      (analyzeGroup pv g).stats2021.count = 0) ∧
    ((refSample g).length = 0 →
      (analyzeGroup pv g).stats2019.mean = none ∧
      (analyzeGroup pv g).stats2019.seSq = none ∧
      (analyzeGroup pv g).stats2019.median = none ∧
      (analyzeGroup pv g).stats2019.stdSq = none ∧
      (analyzeGroup pv g).stats2019.variance = none ∧
      (analyzeGroup pv g).stats2019.kurtosis = none ∧
      (analyzeGroup pv g).stats2019.skewSgnSq = none ∧
      (analyzeGroup pv g).stats2019.range = none ∧
      (analyzeGroup pv g).stats2019.min = none ∧
      (analyzeGroup pv g).stats2019.max = none ∧
      (analyzeGroup pv g).stats2019.sum = 0 ∧
      (analyzeGroup pv g).stats2019.count = 0) := by
  constructor
  · intro h
    exact descStats_all_nan h
  · intro h
    exact descStats_all_nan h

theorem zeroCount_nan_sentinel_witness :
    (compSample empty21Group).length = 0 ∧
      (analyzeGroup pvZero empty21Group).stats2021.mean = none ∧
      (analyzeGroup pvZero empty21Group).stats2021.median = none :=
  ⟨by decide,
    ((zeroCount_nan_sentinel pvZero empty21Group).1 (by decide)).1,
    ((zeroCount_nan_sentinel pvZero empty21Group).1 (by decide)).2.2.1⟩

/-- Claim C10: for every dataset with at least two rows and every rational
percentile, every row of the upper group carries a rank-column value at least
as large as that of every row of the lower group. -/
theorem upper_dominates_lower (rows : List Row) (p : ℚ) (_h : 2 ≤ rows.length)
    (r s : Row) (hr : r ∈ (splitRows rows p).1) (hs : s ∈ (splitRows rows p).2) :
    s.gdp ≤ r.gdp := by
  have hp := sortRows_pairwise rows
  have hsplit :=
    List.take_append_drop (cutoffIdx (sortRows rows).length p).toNat (sortRows rows)
  rw [← hsplit] at hp
  exact (List.pairwise_append.mp hp).2.2 r hr s hs

theorem upper_dominates_lower_witness :
    2 ≤ twoRows.length ∧
      (Row.mk 3 (some 1) (some 1)).gdp ≤ (Row.mk 5 (some 2) (some 2)).gdp :=
  ⟨by decide,
    upper_dominates_lower twoRows 50 (by decide) (Row.mk 5 (some 2) (some 2))
      (Row.mk 3 (some 1) (some 1)) (by with_unfolding_all decide)
      (by with_unfolding_all decide)⟩
